import Mathlib

/-!
Shallow embedding of `src/baxter_control/src/baxter_to_csv.cpp`
(class `baxter_control::BaxterToCSV`, a joint-state/joint-command CSV recorder).

Modelling conventions:
* ROS times and all `double` values are modelled as exact rationals (`ℚ`);
  the only arithmetic the code performs on them is comparison, addition of a
  timeout, and subtraction of a start time, all of which the claims treat
  symbolically.
* `ros::Time::now()` is an input: every operation that reads the clock takes a
  `now : ℚ` argument.
* The constants `RECORD_RATE_HZ` and `STATE_EXPIRED_TIMEOUT` are defined in
  `baxter_to_csv.h`, which is not part of `src/`; they are therefore passed as
  parameters (`rate`, `timeout`) wherever the `.cpp` uses them.
* The timer `non_realtime_loop_` is modelled as `Option ℚ`: `some p` is a
  running timer with period `p` seconds, `none` a stopped/absent timer.  It is
  the only timer the class owns, and `nh_.createTimer` in `startRecording` is
  the only place a periodic callback is registered.
* Writing a file is modelled as a `FileWrite` value returned by the operation:
  each `<<`-emitted cell of a CSV line becomes one `Field`; the code prints
  every cell followed by a comma and ends each line with `std::endl`, so the
  separators carry no information and are not modelled.  An operation that
  returns `none` for its `Option FileWrite` touched no file.
* C++ `std::vector::operator[]` performs no bounds check (out-of-range access
  is undefined behaviour); it is modelled totally by `List.getD` with the
  default-constructed message as junk value, and the in-bounds question is
  treated separately by the `writeToFileAccessesInBounds` predicate.
-/

namespace BaxterControl

/-- `sensor_msgs::JointState` as used by the code: `header.stamp` (via
`toSec()`) and the four parallel arrays.  The default-constructed message has
zero stamp and empty arrays. -/
structure JointState where
  stamp : ℚ
  name : List String
  position : List ℚ
  velocity : List ℚ
  effort : List ℚ
  deriving DecidableEq, Repr

/-- The default-constructed `sensor_msgs::JointState`. -/
def JointState.empty : JointState :=
  { stamp := 0, name := [], position := [], velocity := [], effort := [] }

/-- `baxter_msgs::JointPositions`: joint names and commanded angles. -/
structure JointPositions where
  names : List String
  angles : List ℚ
  deriving DecidableEq, Repr

/-- The default-constructed `baxter_msgs::JointPositions`. -/
def JointPositions.empty : JointPositions := { names := [], angles := [] }

/-- `baxter_msgs::JointVelocities`: joint names and commanded velocities. -/
structure JointVelocities where
  names : List String
  velocities : List ℚ
  deriving DecidableEq, Repr

/-- The default-constructed `baxter_msgs::JointVelocities`. -/
def JointVelocities.empty : JointVelocities := { names := [], velocities := [] }

/-- One CSV cell, exactly as emitted by one `<<` group of `writeToFile`:
either a string (header cells) or a numeric value. -/
inductive Field where
  | str : String → Field
  | num : ℚ → Field
  deriving DecidableEq, Repr

/-- A completed file write: the file name passed to `ofstream::open` and the
emitted lines, each line the sequence of its cells. -/
structure FileWrite where
  name : String
  lines : List (List Field)
  deriving DecidableEq, Repr

/-- The member state of class `BaxterToCSV` (field names follow the C++
members, without the trailing underscore).  `joint_commands` is declared in
the missing header; the `.cpp` only ever clears it (the push is commented
out), so its element type is irrelevant and modelled as `List ℚ`. -/
structure BaxterToCSV where
  arm_name : String
  joint_name : String
  file_name : String
  current_state_count : Nat
  command_index : Nat
  first_update : Bool
  position_cmd_mode : Bool
  joint_states : List JointState
  joint_commands : List (List ℚ)
  cmd_position_msgs : List JointPositions
  cmd_velocity_msgs : List JointVelocities
  state_msg : JointState
  cmd_position_msg : JointPositions
  cmd_velocity_msg : JointVelocities
  state_msg_timestamp : ℚ
  non_realtime_loop : Option ℚ
  deriving DecidableEq, Repr

/-- The joint-state topic subscribed in the constructor (lines 53-54). -/
def stateTopic (arm_name : String) : String :=
  "/robot/limb/" ++ arm_name ++ "/joint_states"

/-- The position-command topic subscribed when `position_cmd_mode_` (57-58). -/
def cmdPositionTopic (arm_name : String) : String :=
  "/robot/limb/" ++ arm_name ++ "/command_joint_angles"

/-- The velocity-command topic subscribed otherwise (lines 62-63). -/
def cmdVelocityTopic (arm_name : String) : String :=
  "/robot/limb/" ++ arm_name ++ "/command_joint_velocities"

/-- The topics the constructor subscribes to, in subscription order
(`BaxterToCSV::BaxterToCSV`, lines 52-64): the joint-state topic, then exactly
one command topic chosen by `position_cmd_mode_`.  No other code in the class
calls `subscribe`. -/
def constructorSubscriptions (position_cmd_mode : Bool) (arm_name : String) :
    List String :=
  [stateTopic arm_name] ++
    (if position_cmd_mode then [cmdPositionTopic arm_name]
     else [cmdVelocityTopic arm_name])

/-- The state built by the constructor (lines 44-73).  The spin-wait loop at
lines 67-72 blocks until the first state message arrives, so the constructed
state carries that first message and its receipt time as inputs; `file_name_`
is default-initialised empty and the timer not yet created. -/
def mkBaxterToCSV (position_cmd_mode : Bool) (first_state_msg : JointState)
    (first_state_time : ℚ) : BaxterToCSV :=
  { arm_name := "left"
    joint_name := "w1"
    file_name := ""
    current_state_count := 0
    command_index := 0
    first_update := false
    position_cmd_mode := position_cmd_mode
    joint_states := []
    joint_commands := []
    cmd_position_msgs := []
    cmd_velocity_msgs := []
    state_msg := first_state_msg
    cmd_position_msg := JointPositions.empty
    cmd_velocity_msg := JointVelocities.empty
    state_msg_timestamp := first_state_time
    non_realtime_loop := none }

/-- `BaxterToCSV::startRecording` (lines 76-89): store the file name, clear
the four collections, and create the sampling timer with period
`1.0/RECORD_RATE_HZ` (the constant `RECORD_RATE_HZ` lives in the missing
header and is the parameter `rate`). -/
def startRecording (rate : ℚ) (file_name : String) (s : BaxterToCSV) :
    BaxterToCSV :=
  { s with
    file_name := file_name
    joint_states := []
    joint_commands := []
    cmd_position_msgs := []
    cmd_velocity_msgs := []
    non_realtime_loop := some (1 / rate) }

/-- `BaxterToCSV::stateExpired` (lines 144-154): true when the clock has
passed the last state-message receipt time plus `STATE_EXPIRED_TIMEOUT`
(parameter `timeout`); otherwise false.  The function only logs and reads
members, mutating nothing, hence its model is a pure function of the state. -/
def stateExpired (now : ℚ) (timeout : ℚ) (s : BaxterToCSV) : Bool :=
  if now > s.state_msg_timestamp + timeout then true
  else false

/-- `BaxterToCSV::writeToFile` (lines 156-211).  Returns the C++ `bool` and
the file write performed, `none` when the empty-buffer guard returns early
without opening a file.  Each `List.range`/`bind` mirrors one `for` loop, each
`Field` one `<<`-emitted cell; `List.getD` mirrors the unchecked `operator[]`
with the default-constructed message as junk value. -/
def writeToFile (s : BaxterToCSV) (file_name : String) :
    Bool × Option FileWrite :=
  if s.joint_states.length = 0 then (false, none)
  else
    let js0 := s.joint_states.getD 0 JointState.empty
    let header : List Field :=
      Field.str "timestamp" ::
        (List.range js0.position.length).flatMap (fun j =>
          [Field.str (js0.name.getD j "" ++ "_pos"),
           Field.str (js0.name.getD j "" ++ "_vel"),
           Field.str (js0.name.getD j "" ++ "_eff"),
           Field.str (js0.name.getD j "" ++
             (if s.position_cmd_mode then "_pos_cmd" else "_vel_cmd"))])
    let start_time := js0.stamp
    let rows : List (List Field) :=
      (List.range s.joint_states.length).map (fun i =>
        let jsi := s.joint_states.getD i JointState.empty
        Field.num (jsi.stamp - start_time) ::
          (List.range jsi.position.length).flatMap (fun j =>
            [Field.num (jsi.position.getD j 0),
             Field.num (jsi.velocity.getD j 0),
             Field.num (jsi.effort.getD j 0),
             Field.num
               (if s.position_cmd_mode then
                  ((s.cmd_position_msgs.getD i JointPositions.empty).angles.getD
                    j 0)
                else
                  ((s.cmd_velocity_msgs.getD i
                      JointVelocities.empty).velocities.getD j 0))]))
    (true, some { name := file_name, lines := header :: rows })

/-- `BaxterToCSV::stopRecording` (lines 91-95): stop the timer, then
`writeToFile(file_name_)`.  Returns the new state and the file write (if
any); the C++ discards `writeToFile`'s boolean. -/
def stopRecording (s : BaxterToCSV) : BaxterToCSV × Option FileWrite :=
  let s2 := { s with non_realtime_loop := none }
  (s2, (writeToFile s2 s2.file_name).2)

/-- `BaxterToCSV::update` (lines 101-123), the timer callback (the
`ros::TimerEvent` argument is only used for logging and is not modelled).
Clear `first_update_`; if the state is expired, call `stopRecording` (note:
the C++ does NOT return here); then unconditionally push the latest state
message and, depending on the mode, the latest position or velocity command
message. -/
def update (now : ℚ) (timeout : ℚ) (s : BaxterToCSV) :
    BaxterToCSV × Option FileWrite :=
  let s1 := { s with first_update := false }
  let p := if stateExpired now timeout s1 then stopRecording s1 else (s1, none)
  let s2 := p.1
  let s3 := { s2 with joint_states := s2.joint_states ++ [s2.state_msg] }
  let s4 :=
    if s3.position_cmd_mode then
      { s3 with cmd_position_msgs := s3.cmd_position_msgs ++ [s3.cmd_position_msg] }
    else
      { s3 with cmd_velocity_msgs := s3.cmd_velocity_msgs ++ [s3.cmd_velocity_msg] }
  (s4, p.2)

/-- `BaxterToCSV::stateCallback` (lines 125-130): copy the message and stamp
the receipt time with `ros::Time::now()`. -/
def stateCallback (msg : JointState) (now : ℚ) (s : BaxterToCSV) :
    BaxterToCSV :=
  { s with state_msg := msg, state_msg_timestamp := now }

/-- `BaxterToCSV::cmdPositionCallback` (lines 132-136). -/
def cmdPositionCallback (msg : JointPositions) (s : BaxterToCSV) :
    BaxterToCSV :=
  { s with cmd_position_msg := msg }

/-- `BaxterToCSV::cmdVelocityCallback` (lines 138-142). -/
def cmdVelocityCallback (msg : JointVelocities) (s : BaxterToCSV) :
    BaxterToCSV :=
  { s with cmd_velocity_msg := msg }

/-! Spec-side definitions (phrased from the claims, to be compared with the
embedding above) and auxiliary predicates. -/

/-- The header line as described by the spec claim about the table format:
the field "timestamp" followed, for each joint `j` of the first sample, by
name_pos, name_vel, name_eff and either name_pos_cmd (position mode) or
name_vel_cmd (velocity mode). -/
def specHeaderLine (mode : Bool) (js0 : JointState) : List Field :=
  Field.str "timestamp" ::
    (List.range js0.position.length).flatMap (fun j =>
      [Field.str (js0.name.getD j "" ++ "_pos"),
       Field.str (js0.name.getD j "" ++ "_vel"),
       Field.str (js0.name.getD j "" ++ "_eff"),
       Field.str (js0.name.getD j "" ++
         (if mode then "_pos_cmd" else "_vel_cmd"))])

/-- A data line as described by the spec claim about the table format: the
sample's header stamp minus the first sample's header stamp, then for each
joint `j` of the sample its position, velocity, effort and the paired
command's value for joint `j`. -/
def specDataRow (js0 jsi : JointState) (cmd : List ℚ) : List Field :=
  Field.num (jsi.stamp - js0.stamp) ::
    (List.range jsi.position.length).flatMap (fun j =>
      [Field.num (jsi.position.getD j 0),
       Field.num (jsi.velocity.getD j 0),
       Field.num (jsi.effort.getD j 0),
       Field.num (cmd.getD j 0)])

/-- The pairing invariant: the state buffer and the mode-selected command
buffer have equal length. -/
def pairedBuffers (s : BaxterToCSV) : Prop :=
  s.joint_states.length =
    (if s.position_cmd_mode then s.cmd_position_msgs.length
     else s.cmd_velocity_msgs.length)

instance (s : BaxterToCSV) : Decidable (pairedBuffers s) := by
  unfold pairedBuffers; infer_instance

/-- Every element access `writeToFile` performs, stated as in-bounds
conditions: the header loop reads `name[j]` of sample 0 for `j` below sample
0's position length; row `i` reads `velocity[j]` and `effort[j]` of sample
`i`, the `i`-th entry of the mode-selected command buffer, and that entry's
value array at `j`, for `j` below sample `i`'s position length
(`position[j]` is indexed below its own length and is always in bounds).
The C++ performs none of these checks itself. -/
def writeToFileAccessesInBounds (s : BaxterToCSV) : Prop :=
  (∀ j, j < (s.joint_states.getD 0 JointState.empty).position.length →
     j < (s.joint_states.getD 0 JointState.empty).name.length) ∧
  (∀ i, i < s.joint_states.length →
    (if s.position_cmd_mode then i < s.cmd_position_msgs.length
     else i < s.cmd_velocity_msgs.length) ∧
    ∀ j, j < (s.joint_states.getD i JointState.empty).position.length →
      j < (s.joint_states.getD i JointState.empty).velocity.length ∧
      j < (s.joint_states.getD i JointState.empty).effort.length ∧
      (if s.position_cmd_mode then
         j < (s.cmd_position_msgs.getD i JointPositions.empty).angles.length
       else
         j < (s.cmd_velocity_msgs.getD i
               JointVelocities.empty).velocities.length))

instance (s : BaxterToCSV) : Decidable (writeToFileAccessesInBounds s) := by
  unfold writeToFileAccessesInBounds; infer_instance

/-- The precondition the spec claim states for `writeToFile`: for every
buffered sample `i`, the sample's name, velocity and effort arrays and the
`i`-th buffered command's value array (angles in position mode, velocities in
velocity mode — which requires the command buffer to reach index `i`) each
have length at least the sample's position-array length, the loop bound (the
first sample's for the header, sample `i`'s for row `i`). -/
def writeToFilePrecondition (s : BaxterToCSV) : Prop :=
  ∀ i, i < s.joint_states.length →
    (s.joint_states.getD i JointState.empty).position.length ≤
      (s.joint_states.getD i JointState.empty).name.length ∧
    (s.joint_states.getD i JointState.empty).position.length ≤
      (s.joint_states.getD i JointState.empty).velocity.length ∧
    (s.joint_states.getD i JointState.empty).position.length ≤
      (s.joint_states.getD i JointState.empty).effort.length ∧
    (if s.position_cmd_mode then
       i < s.cmd_position_msgs.length ∧
       (s.joint_states.getD i JointState.empty).position.length ≤
         (s.cmd_position_msgs.getD i JointPositions.empty).angles.length
     else
       i < s.cmd_velocity_msgs.length ∧
       (s.joint_states.getD i JointState.empty).position.length ≤
         (s.cmd_velocity_msgs.getD i
           JointVelocities.empty).velocities.length)

instance (s : BaxterToCSV) : Decidable (writeToFilePrecondition s) := by
  unfold writeToFilePrecondition; infer_instance

/-! Concrete states used to instantiate theorems with hypotheses. -/

/-- A concrete one-joint state sample. -/
def exJointState : JointState :=
  { stamp := 5, name := ["left_w1"], position := [1/2], velocity := [2],
    effort := [3] }

/-- A concrete recorder state in position-command mode holding one buffered
sample and a matching buffered command, with a running timer. -/
def exState : BaxterToCSV :=
  { arm_name := "left"
    joint_name := "w1"
    file_name := "out.csv"
    current_state_count := 0
    command_index := 0
    first_update := false
    position_cmd_mode := true
    joint_states := [exJointState]
    joint_commands := []
    cmd_position_msgs := [{ names := ["left_w1"], angles := [7] }]
    cmd_velocity_msgs := []
    state_msg := exJointState
    cmd_position_msg := { names := ["left_w1"], angles := [9] }
    cmd_velocity_msg := JointVelocities.empty
    state_msg_timestamp := 5
    non_realtime_loop := some (1 / 100) }

/-! Helper lemmas. -/

/-- `stateExpired` does not read `first_update_`. -/
theorem stateExpired_set_first (now timeout : ℚ) (s : BaxterToCSV) (b : Bool) :
    stateExpired now timeout { s with first_update := b } =
      stateExpired now timeout s := rfl

/-- `writeToFile` reads neither `first_update_` nor the timer. -/
theorem writeToFile_set_first_timer (s : BaxterToCSV) (file_name : String)
    (b : Bool) (t : Option ℚ) :
    writeToFile { s with first_update := b, non_realtime_loop := t }
        file_name = writeToFile s file_name := rfl

/-- `writeToFile` reads only the state buffer, the mode flag and the two
command buffers. -/
theorem writeToFile_congr (s1 s2 : BaxterToCSV) (fn : String)
    (h1 : s1.joint_states = s2.joint_states)
    (h2 : s1.position_cmd_mode = s2.position_cmd_mode)
    (h3 : s1.cmd_position_msgs = s2.cmd_position_msgs)
    (h4 : s1.cmd_velocity_msgs = s2.cmd_velocity_msgs) :
    writeToFile s1 fn = writeToFile s2 fn := by
  unfold writeToFile
  rw [h1, h2, h3, h4]

/-- Closed form of one `update` tick: the timer is cleared exactly when the
state was stale (in which case the pre-append buffers are serialized to the
stored file name), and the state message and the mode-selected command
message are appended unconditionally. -/
theorem update_eq (now timeout : ℚ) (s : BaxterToCSV) :
    update now timeout s =
      ({ s with
         first_update := false
         non_realtime_loop :=
           if stateExpired now timeout s then none else s.non_realtime_loop
         joint_states := s.joint_states ++ [s.state_msg]
         cmd_position_msgs :=
           if s.position_cmd_mode then
             s.cmd_position_msgs ++ [s.cmd_position_msg]
           else s.cmd_position_msgs
         cmd_velocity_msgs :=
           if s.position_cmd_mode then s.cmd_velocity_msgs
           else s.cmd_velocity_msgs ++ [s.cmd_velocity_msg] },
       if stateExpired now timeout s then (writeToFile s s.file_name).2
       else none) := by
  cases hexp : stateExpired now timeout s <;>
    simp only [update, stopRecording, stateExpired_set_first, hexp] <;>
    cases hmode : s.position_cmd_mode <;>
      simp [hmode] <;>
      exact congrArg Prod.snd (writeToFile_congr _ _ _ rfl hmode.symm rfl rfl)

/-! Claim theorems. -/

/-- C7: `stateExpired` returns true if and only if the current time strictly
exceeds the timestamp at which the last state message was received plus the
timeout constant.  It is a pure function of the recorder state (the C++ body
only compares members and logs), so it modifies no recorder state. -/
theorem stateExpired_iff (now timeout : ℚ) (s : BaxterToCSV) :
    stateExpired now timeout s = true ↔
      now > s.state_msg_timestamp + timeout := by
  by_cases h : now > s.state_msg_timestamp + timeout <;>
    simp [stateExpired, h]

/-- C6: the constructor subscribes to exactly two streams, in this order: the
joint-state topic of the configured arm ("left"), then exactly one command
topic selected by the mode flag — joint angles when `position_cmd_mode` is
true, joint velocities otherwise.  The subscription list contains nothing
else, and no other operation of the class subscribes. -/
theorem constructorSubscriptions_exact (position_cmd_mode : Bool) :
    constructorSubscriptions position_cmd_mode "left" =
      ["/robot/limb/left/joint_states",
       if position_cmd_mode then "/robot/limb/left/command_joint_angles"
       else "/robot/limb/left/command_joint_velocities"] ∧
    (constructorSubscriptions position_cmd_mode "left").length = 2 := by
  cases position_cmd_mode <;> exact ⟨rfl, rfl⟩

/-- C5: `startRecording` creates the sampling timer with the constant period
`1.0/RECORD_RATE_HZ` seconds (`rate` stands for the constant
`RECORD_RATE_HZ` from the missing header), independent of the file name and
of any prior state; the class owns a single timer field, and this is the
only registration of a periodic callback in the model. -/
theorem startRecording_timer (rate : ℚ) (fn1 fn2 : String)
    (s1 s2 : BaxterToCSV) :
    (startRecording rate fn1 s1).non_realtime_loop = some (1 / rate) ∧
    (startRecording rate fn1 s1).non_realtime_loop =
      (startRecording rate fn2 s2).non_realtime_loop :=
  ⟨rfl, rfl⟩

/-- C8: `writeToFile` with an empty state-sample buffer returns false having
performed no file write (and, being a pure function of the state in this
model, it changes no buffer); with a non-empty state-sample buffer it
returns true. -/
theorem writeToFile_result (s : BaxterToCSV) (file_name : String) :
    (s.joint_states = [] → writeToFile s file_name = (false, none)) ∧
    (s.joint_states ≠ [] →
      (writeToFile s file_name).1 = true ∧
      ((writeToFile s file_name).2.isSome = true)) := by
  constructor
  · intro h
    simp [writeToFile, h]
  · intro h
    have hlen : s.joint_states.length ≠ 0 := by
      simpa [List.length_eq_zero] using h
    simp [writeToFile, hlen]

/-- Witness for C8 at concrete inputs: the freshly constructed recorder has
an empty buffer and gets `(false, none)`; `exState` has one sample and gets
`true`. -/
theorem writeToFile_result_witness :
    writeToFile (mkBaxterToCSV true JointState.empty 1) "a.csv" =
      (false, none) ∧
    (writeToFile exState "out.csv").1 = true :=
  ⟨(writeToFile_result (mkBaxterToCSV true JointState.empty 1) "a.csv").1 rfl,
   ((writeToFile_result exState "out.csv").2 (by decide)).1⟩

/-- C9: after `startRecording`, and after every `update` tick whenever the
invariant held before the tick, the state-sample buffer and the
mode-selected command buffer have equal length, so every state sample has a
paired command sample when `writeToFile` indexes them. -/
theorem pairedBuffers_inv :
    (∀ rate file_name s, pairedBuffers (startRecording rate file_name s)) ∧
    (∀ now timeout s, pairedBuffers s →
      pairedBuffers (update now timeout s).1) := by
  constructor
  · intro rate fn s
    simp [pairedBuffers, startRecording]
  · intro now timeout s h
    unfold pairedBuffers at h ⊢
    rw [update_eq]
    cases hmode : s.position_cmd_mode <;> simp [hmode] at h ⊢ <;> omega

/-- Witness for C9: the invariant holds after a concrete `startRecording`,
and it holds at `exState` and is preserved by a concrete tick. -/
theorem pairedBuffers_inv_witness :
    pairedBuffers (startRecording 100 "out.csv" exState) ∧
    pairedBuffers exState ∧
    pairedBuffers (update 100 1 exState).1 :=
  ⟨pairedBuffers_inv.1 100 "out.csv" exState, by decide,
   pairedBuffers_inv.2 100 1 exState (by decide)⟩

/-- C3: on a tick at which the state is not stale, `update` appends exactly
one sample to each buffer: the most recently received state message to the
state buffer and the most recently received command message to the
position-command buffer in position mode, otherwise to the velocity-command
buffer; the other command buffer is untouched and no file is written. -/
theorem update_fresh_appends (now timeout : ℚ) (s : BaxterToCSV)
    (h : stateExpired now timeout s = false) :
    (update now timeout s).1.joint_states = s.joint_states ++ [s.state_msg] ∧
    (update now timeout s).1.cmd_position_msgs =
      (if s.position_cmd_mode then s.cmd_position_msgs ++ [s.cmd_position_msg]
       else s.cmd_position_msgs) ∧
    (update now timeout s).1.cmd_velocity_msgs =
      (if s.position_cmd_mode then s.cmd_velocity_msgs
       else s.cmd_velocity_msgs ++ [s.cmd_velocity_msg]) ∧
    (update now timeout s).2 = none := by
  rw [update_eq]
  simp [h]

/-- Witness for C3: a concrete fresh tick at `exState` (the clock reads 5,
the last state message arrived at 5, timeout 1). -/
theorem update_fresh_appends_witness :
    (update 5 1 exState).1.joint_states =
      exState.joint_states ++ [exState.state_msg] ∧
    (update 5 1 exState).1.cmd_position_msgs =
      (if exState.position_cmd_mode then
         exState.cmd_position_msgs ++ [exState.cmd_position_msg]
       else exState.cmd_position_msgs) ∧
    (update 5 1 exState).1.cmd_velocity_msgs =
      (if exState.position_cmd_mode then exState.cmd_velocity_msgs
       else exState.cmd_velocity_msgs ++ [exState.cmd_velocity_msg]) ∧
    (update 5 1 exState).2 = none :=
  update_fresh_appends 5 1 exState (by simp [stateExpired, exState])

/-- Counterexample to C1 as stated: at clock time 100 with timeout 1 the
state message of `exState` (received at time 5) is stale, yet the tick still
appends one sample to the state buffer and one to the active command buffer
— the C++ `update` does not return after calling `stopRecording`. -/
theorem update_stale_cex :
    stateExpired 100 1 exState = true ∧
    (update 100 1 exState).1.joint_states.length =
      exState.joint_states.length + 1 ∧
    (update 100 1 exState).1.cmd_position_msgs.length =
      exState.cmd_position_msgs.length + 1 := by
  have hexp : stateExpired 100 1 exState = true := by
    simp [stateExpired, exState]
    norm_num
  refine ⟨hexp, ?_, ?_⟩ <;> rw [update_eq] <;> simp [exState]

/-- C1 amended: on a tick at which the state message is stale, `update`
stops the sampling timer and serializes the already-collected samples to the
recorded file name; however, because the C++ does not return after
`stopRecording`, the tick then still appends one sample to the state buffer
and to the mode-selected command buffer (the appended sample is not part of
the file just written). -/
theorem update_stale_aborts (now timeout : ℚ) (s : BaxterToCSV)
    (h : stateExpired now timeout s = true) :
    (update now timeout s).1.non_realtime_loop = none ∧
    (update now timeout s).2 = (writeToFile s s.file_name).2 ∧
    (update now timeout s).1.joint_states = s.joint_states ++ [s.state_msg] ∧
    (update now timeout s).1.cmd_position_msgs =
      (if s.position_cmd_mode then s.cmd_position_msgs ++ [s.cmd_position_msg]
       else s.cmd_position_msgs) ∧
    (update now timeout s).1.cmd_velocity_msgs =
      (if s.position_cmd_mode then s.cmd_velocity_msgs
       else s.cmd_velocity_msgs ++ [s.cmd_velocity_msg]) := by
  rw [update_eq]
  simp [h]

/-- Witness for the amended C1 at the stale tick of `update_stale_cex`. -/
theorem update_stale_aborts_witness :
    (update 100 1 exState).1.non_realtime_loop = none ∧
    (update 100 1 exState).2 = (writeToFile exState exState.file_name).2 ∧
    (update 100 1 exState).1.joint_states =
      exState.joint_states ++ [exState.state_msg] ∧
    (update 100 1 exState).1.cmd_position_msgs =
      (if exState.position_cmd_mode then
         exState.cmd_position_msgs ++ [exState.cmd_position_msg]
       else exState.cmd_position_msgs) ∧
    (update 100 1 exState).1.cmd_velocity_msgs =
      (if exState.position_cmd_mode then exState.cmd_velocity_msgs
       else exState.cmd_velocity_msgs ++ [exState.cmd_velocity_msg]) :=
  update_stale_aborts 100 1 exState
    (by simp [stateExpired, exState]; norm_num)

/-- C2: `startRecording` stores the given file name (and `update` never
changes it); `stopRecording` stops the sampling timer and performs exactly
the `writeToFile` serialization of the currently buffered samples — all
samples collected since `startRecording`, which cleared the buffers — to
that stored file name, the written table holding one line per buffered
sample plus a header. -/
theorem stopRecording_writes (rate : ℚ) (file_name : String) :
    (∀ s, (startRecording rate file_name s).file_name = file_name) ∧
    (∀ now timeout s, (update now timeout s).1.file_name = s.file_name) ∧
    (∀ s, s.joint_states ≠ [] →
      (stopRecording s).1.non_realtime_loop = none ∧
      (stopRecording s).2 = (writeToFile s s.file_name).2 ∧
      (stopRecording s).2.map (fun w => w.name) = some s.file_name ∧
      (stopRecording s).2.map (fun w => w.lines.length) =
        some (s.joint_states.length + 1)) := by
  refine ⟨fun s => rfl, ?_, ?_⟩
  · intro now timeout s
    rw [update_eq]
  · intro s h
    have hlen : s.joint_states.length ≠ 0 := by
      simpa [List.length_eq_zero] using h
    exact ⟨rfl, rfl, by simp [stopRecording, writeToFile, hlen],
      by simp [stopRecording, writeToFile, hlen]⟩

/-- Witness for C2 at `exState` (one buffered sample, file name "out.csv"),
with a concrete `startRecording` and tick for the file-name conjuncts. -/
theorem stopRecording_writes_witness :
    (startRecording 100 "out.csv" exState).file_name = "out.csv" ∧
    (update 5 1 exState).1.file_name = exState.file_name ∧
    (stopRecording exState).1.non_realtime_loop = none ∧
    (stopRecording exState).2 =
      (writeToFile exState exState.file_name).2 ∧
    (stopRecording exState).2.map (fun w => w.name) =
      some exState.file_name ∧
    (stopRecording exState).2.map (fun w => w.lines.length) =
      some (exState.joint_states.length + 1) :=
  ⟨(stopRecording_writes 100 "out.csv").1 exState,
   (stopRecording_writes 100 "out.csv").2.1 5 1 exState,
   (stopRecording_writes 100 "out.csv").2.2 exState (by decide)⟩

/-- C4: for every non-empty state buffer of N samples, `writeToFile` writes
to the given file a table of N+1 lines: the header line described by
`specHeaderLine` (built from the first sample, with the command column
suffix selected by the mode), then for each sample `i` the data line
described by `specDataRow` — timestamp relative to the first sample, and per
joint the sample's position, velocity, effort and the `i`-th buffered
command's value, the data line's joints ranging over sample `i`'s own
position entries, which is the loop bound the code uses. -/
theorem writeToFile_table (s : BaxterToCSV) (file_name : String)
    (h : s.joint_states ≠ []) :
    (writeToFile s file_name).2 = some
      { name := file_name
        lines :=
          specHeaderLine s.position_cmd_mode
              (s.joint_states.getD 0 JointState.empty) ::
            (List.range s.joint_states.length).map (fun i =>
              specDataRow (s.joint_states.getD 0 JointState.empty)
                (s.joint_states.getD i JointState.empty)
                (if s.position_cmd_mode then
                   (s.cmd_position_msgs.getD i JointPositions.empty).angles
                 else
                   (s.cmd_velocity_msgs.getD i
                     JointVelocities.empty).velocities)) } ∧
    ((writeToFile s file_name).2.map fun w => w.lines.length) =
      some (s.joint_states.length + 1) := by
  have hlen : s.joint_states.length ≠ 0 := by
    simpa [List.length_eq_zero] using h
  constructor
  · cases hmode : s.position_cmd_mode <;>
      simp [writeToFile, hlen, hmode, specHeaderLine, specDataRow]
  · simp [writeToFile, hlen]

/-- Witness for C4 at `exState` (one sample, one joint, position mode). -/
theorem writeToFile_table_witness :
    (writeToFile exState "out.csv").2 = some
      { name := "out.csv"
        lines :=
          specHeaderLine exState.position_cmd_mode
              (exState.joint_states.getD 0 JointState.empty) ::
            (List.range exState.joint_states.length).map (fun i =>
              specDataRow (exState.joint_states.getD 0 JointState.empty)
                (exState.joint_states.getD i JointState.empty)
                (if exState.position_cmd_mode then
                   (exState.cmd_position_msgs.getD i
                     JointPositions.empty).angles
                 else
                   (exState.cmd_velocity_msgs.getD i
                     JointVelocities.empty).velocities)) } ∧
    ((writeToFile exState "out.csv").2.map fun w => w.lines.length) =
      some (exState.joint_states.length + 1) :=
  writeToFile_table exState "out.csv" (by simp [exState])

/-- C10: the precondition the claim states — every buffered sample's name,
velocity and effort arrays and its paired buffered command's value array at
least as long as that sample's position array, the loop bound — implies that
every element access `writeToFile` performs is in bounds.  The code performs
no bounds check of its own: the embedding's `getD` junk defaults stand for
the unchecked `operator[]` reads. -/
theorem writeToFile_safe (s : BaxterToCSV)
    (h : writeToFilePrecondition s) : writeToFileAccessesInBounds s := by
  constructor
  · intro j hj
    rcases Nat.eq_zero_or_pos s.joint_states.length with h0 | h0
    · have he : s.joint_states = [] := List.length_eq_zero.mp h0
      rw [he] at hj
      simp [JointState.empty] at hj
    · exact lt_of_lt_of_le hj (h 0 h0).1
  · intro i hi
    obtain ⟨h1, h2, h3, h4⟩ := h i hi
    constructor
    · cases hmode : s.position_cmd_mode <;> simp [hmode] at h4 ⊢ <;>
        exact h4.1
    · intro j hj
      have hj2 := hj
      refine ⟨lt_of_lt_of_le hj h2, lt_of_lt_of_le hj h3, ?_⟩
      cases hmode : s.position_cmd_mode <;> simp [hmode] at h4 hj2 ⊢ <;>
        exact lt_of_lt_of_le hj2 h4.2

/-- Witness for C10: `exState` satisfies the claimed precondition, and the
theorem then yields that all of `writeToFile`'s accesses are in bounds. -/
theorem writeToFile_safe_witness :
    writeToFilePrecondition exState ∧ writeToFileAccessesInBounds exState :=
  ⟨by decide, writeToFile_safe exState (by decide)⟩

end BaxterControl
